import Mathlib

/-!
Verification of the splice-agent pipeline: a shallow embedding of the
PDF text-extraction step (src/ocr.py) and the vector-store population
step (src/db_setup.py), with theorems checking the specification.

External libraries (PyMuPDF, ChromaDB, json, hashlib) are modelled at
the interface the code uses: a PDF document is its list of per-page
extracted texts plus optional embedded properties; the vector collection
is a list of entries; JSON values are a tree type; the md5 hex digest is
implemented in full.
-/

namespace Splice

/-! ## Python string helpers -/

/-- Whitespace characters stripped by the Python str.strip method
(ASCII subset; the texts handled by the pipeline). -/
def isPySpace (c : Char) : Bool :=
  c = ' ' || c = '\t' || c = '\n' || c = '\x0b' || c = '\x0c' || c = '\r'

/-- Model of the Python str.strip method: remove leading and trailing
whitespace. -/
def pyStrip (s : String) : String :=
  ⟨(s.data.dropWhile isPySpace).rdropWhile isPySpace⟩

/-! ## The md5 hex digest (hashlib.md5(name.encode()).hexdigest())

A faithful implementation of RFC 1321 over natural numbers, with 32-bit
arithmetic done modulo 2^32. -/

/-- Per-operation left-rotation amounts of md5. -/
def md5Shifts : List Nat :=
  [7, 12, 17, 22, 7, 12, 17, 22, 7, 12, 17, 22, 7, 12, 17, 22,
   5, 9, 14, 20, 5, 9, 14, 20, 5, 9, 14, 20, 5, 9, 14, 20,
   4, 11, 16, 23, 4, 11, 16, 23, 4, 11, 16, 23, 4, 11, 16, 23,
   6, 10, 15, 21, 6, 10, 15, 21, 6, 10, 15, 21, 6, 10, 15, 21]

/-- Per-operation additive constants of md5. -/
def md5K : List Nat :=
  [0xd76aa478, 0xe8c7b756, 0x242070db, 0xc1bdceee,
   0xf57c0faf, 0x4787c62a, 0xa8304613, 0xfd469501,
   0x698098d8, 0x8b44f7af, 0xffff5bb1, 0x895cd7be,
   0x6b901122, 0xfd987193, 0xa679438e, 0x49b40821,
   0xf61e2562, 0xc040b340, 0x265e5a51, 0xe9b6c7aa,
   0xd62f105d, 0x02441453, 0xd8a1e681, 0xe7d3fbc8,
   0x21e1cde6, 0xc33707d6, 0xf4d50d87, 0x455a14ed,
   0xa9e3e905, 0xfcefa3f8, 0x676f02d9, 0x8d2a4c8a,
   0xfffa3942, 0x8771f681, 0x6d9d6122, 0xfde5380c,
   0xa4beea44, 0x4bdecfa9, 0xf6bb4b60, 0xbebfbc70,
   0x289b7ec6, 0xeaa127fa, 0xd4ef3085, 0x04881d05,
   0xd9d4d039, 0xe6db99e5, 0x1fa27cf8, 0xc4ac5665,
   0xf4292244, 0x432aff97, 0xab9423a7, 0xfc93a039,
   0x655b59c3, 0x8f0ccc92, 0xffeff47d, 0x85845dd1,
   0x6fa87e4f, 0xfe2ce6e0, 0xa3014314, 0x4e0811a1,
   0xf7537e82, 0xbd3af235, 0x2ad7d2bb, 0xeb86d391]

/-- Truncation to a 32-bit word. -/
def w32 (n : Nat) : Nat := n % 4294967296

/-- Bitwise complement of a 32-bit word. -/
def wnot (n : Nat) : Nat := 4294967295 - w32 n

/-- Left rotation of a 32-bit word by n bits. -/
def rotl32 (x n : Nat) : Nat :=
  w32 ((w32 x <<< n) ||| (w32 x >>> (32 - n)))

/-- Little-endian byte decomposition of a number, k bytes. -/
def leBytes : Nat → Nat → List Nat
  | 0, _ => []
  | k + 1, n => (n % 256) :: leBytes k (n / 256)

/-- Grouping of a byte list into little-endian 32-bit words. -/
def bytesToWords : List Nat → List Nat
  | a :: b :: c :: d :: rest =>
      (a + 256 * b + 65536 * c + 16777216 * d) :: bytesToWords rest
  | _ => []

/-- Padding step of md5: append the byte 0x80, zero bytes up to 56 mod
64, then the original bit length as 8 little-endian bytes. -/
def md5Pad (msg : List Nat) : List Nat :=
  let zeros := (64 + 56 - (msg.length + 1) % 64) % 64
  msg ++ [128] ++ List.replicate zeros 0 ++ leBytes 8 (msg.length * 8)

/-- Splitting of the padded message into 64-byte blocks. -/
def md5Chunks (l : List Nat) : List (List Nat) :=
  if h : l = [] then [] else
    l.take 64 :: md5Chunks (l.drop 64)
termination_by l.length
decreasing_by
  simp only [List.length_drop]
  exact Nat.sub_lt (List.length_pos.mpr h) (by omega)

/-- The state of md5: four 32-bit words. -/
structure MD5State where
  a : Nat
  b : Nat
  c : Nat
  d : Nat
deriving Repr, DecidableEq

/-- One of the 64 operations of an md5 block, on the 16 message words M. -/
def md5Op (M : List Nat) (st : MD5State) (i : Nat) : MD5State :=
  let fg : Nat × Nat :=
    if i < 16 then ((st.b &&& st.c) ||| (wnot st.b &&& st.d), i)
    else if i < 32 then ((st.d &&& st.b) ||| (wnot st.d &&& st.c), (5 * i + 1) % 16)
    else if i < 48 then (st.b ^^^ st.c ^^^ st.d, (3 * i + 5) % 16)
    else (st.c ^^^ (st.b ||| wnot st.d), (7 * i) % 16)
  let f := w32 (fg.1 + st.a + md5K.getD i 0 + M.getD fg.2 0)
  ⟨st.d, w32 (st.b + rotl32 f (md5Shifts.getD i 0)), st.b, st.c⟩

/-- Processing of one 64-byte block. -/
def md5Block (st : MD5State) (block : List Nat) : MD5State :=
  let M := bytesToWords block
  let r := (List.range 64).foldl (md5Op M) st
  ⟨w32 (st.a + r.a), w32 (st.b + r.b), w32 (st.c + r.c), w32 (st.d + r.d)⟩

/-- Initial md5 state. -/
def md5Init : MD5State := ⟨0x67452301, 0xefcdab89, 0x98badcfe, 0x10325476⟩

/-- The md5 digest of a byte list: 16 bytes. -/
def md5Bytes (msg : List Nat) : List Nat :=
  let st := (md5Chunks (md5Pad msg)).foldl md5Block md5Init
  leBytes 4 st.a ++ leBytes 4 st.b ++ leBytes 4 st.c ++ leBytes 4 st.d

/-- Lower-case hexadecimal digit. -/
def hexDigit (n : Nat) : Char :=
  if n < 10 then Char.ofNat (48 + n) else Char.ofNat (87 + n)

/-- Two hexadecimal characters of one byte. -/
def byteHexChars (b : Nat) : List Char :=
  [hexDigit (b / 16 % 16), hexDigit (b % 16)]

/-- Hexadecimal digest characters of the md5 of the UTF-8 encoding of a
string, as hashlib.md5(s.encode()).hexdigest() produces them. -/
def md5HexChars (s : String) : List Char :=
  ((md5Bytes (s.toUTF8.toList.map (fun b => b.toNat))).map byteHexChars).flatten

/-- Document identifier derivation of src/ocr.py line 48:
hashlib.md5(pdf_path.name.encode()).hexdigest()[:12]. -/
def docId (name : String) : String :=
  ⟨(md5HexChars name).take 12⟩

/-! ## The Extractor (src/ocr.py)

A PDF document, as the code observes it through PyMuPDF: the text that
page.get_text() returns for each page in order, and the optional
embedded document properties that doc.metadata.get reads. The
doc.page_count value equals the number of iterated pages. -/

/-- Model of an opened PDF document. -/
structure PDFDoc where
  pageTexts : List String
  title : Option String
  author : Option String
  subject : Option String
deriving Repr, DecidableEq

/-- Metadata block of a Document Record (src/ocr.py lines 27 to 33). -/
structure DocMetadata where
  filename : String
  pages : Nat
  title : String
  author : String
  subject : String
deriving Repr, DecidableEq

/-- One entry of the per-page text list (src/ocr.py lines 40 to 43). -/
structure PageEntry where
  page : Nat
  text : String
deriving Repr, DecidableEq

/-- The Document Record returned by extract_text (src/ocr.py lines 50
to 55). -/
structure DocumentRecord where
  doc_id : String
  metadata : DocMetadata
  pages : List PageEntry
  full_text : String
deriving Repr, DecidableEq

/-- Model of PDFExtractor.extract_text (src/ocr.py lines 22 to 55) on an
opened document; name stands for pdf_path.name. -/
def extract_text (name : String) (doc : PDFDoc) : DocumentRecord :=
  let metadata : DocMetadata :=
    { filename := name
      pages := doc.pageTexts.length
      title := doc.title.getD ""
      author := doc.author.getD ""
      subject := doc.subject.getD "" }
  let pages : List PageEntry :=
    (List.enumFrom 1 doc.pageTexts).filterMap fun pt =>
      if pyStrip pt.2 ≠ "" then some ⟨pt.1, pyStrip pt.2⟩ else none
  { doc_id := docId name
    metadata := metadata
    pages := pages
    full_text := String.intercalate "\n\n" (pages.map fun p => p.text) }

/-- A PDF file on disk as process_directory sees it: its filename, and
either the document that fitz.open yields or none when opening or
extraction raises. -/
structure PDFFile where
  name : String
  doc : Option PDFDoc
deriving Repr, DecidableEq

/-- Observable outcome of process_directory: the JSON files written to
the output directory (filename and content), the returned record list,
and the names of the files whose processing raised and was logged. -/
structure ProcessResult where
  written : List (String × DocumentRecord)
  results : List DocumentRecord
  errors : List String
deriving Repr, DecidableEq

/-- Model of PDFExtractor.process_directory (src/ocr.py lines 57 to 80):
each file is tried; a raising file is logged and skipped; a successful
extraction is written to <doc_id>.json and appended to the results. -/
def process_directory : List PDFFile → ProcessResult
  | [] => ⟨[], [], []⟩
  | f :: rest =>
    match f.doc with
    | none =>
        let r := process_directory rest
        ⟨r.written, r.results, f.name :: r.errors⟩
    | some d =>
        let e := extract_text f.name d
        let r := process_directory rest
        ⟨(e.doc_id ++ ".json", e) :: r.written, e :: r.results, r.errors⟩

/-! ## JSON values

The intermediate format: process_directory writes each record with
json.dump and add_papers_from_json reads it back with json.load. The
values involved are strings, integers, arrays and objects; json.dump
followed by json.load is the identity on them, so the files are
modelled as the value trees themselves. -/

/-- JSON value tree, restricted to the types the pipeline writes. -/
inductive Json where
  | str : String → Json
  | num : Nat → Json
  | arr : List Json → Json
  | obj : List (String × Json) → Json

/-- Key access on a JSON object, as the Python subscript data[k]: none
models the KeyError or TypeError that a missing key or a non-object
raises. -/
def Json.get? : Json → String → Option Json
  | .obj fields, k => fields.lookup k
  | _, _ => none

/-- String content of a JSON value. -/
def Json.asStr : Json → Option String
  | .str s => some s
  | _ => none

/-- Integer content of a JSON value. -/
def Json.asNat : Json → Option Nat
  | .num n => some n
  | _ => none

/-- Array content of a JSON value. -/
def Json.asArr : Json → Option (List Json)
  | .arr l => some l
  | _ => none

/-- JSON object written by process_directory for one record, with the
field order of the dict literals in src/ocr.py lines 27 to 33 and 50
to 55. -/
def recordToJson (r : DocumentRecord) : Json :=
  .obj [("doc_id", .str r.doc_id),
        ("metadata", .obj
          [("filename", .str r.metadata.filename),
           ("pages", .num r.metadata.pages),
           ("title", .str r.metadata.title),
           ("author", .str r.metadata.author),
           ("subject", .str r.metadata.subject)]),
        ("pages", .arr (r.pages.map fun p =>
          .obj [("page", .num p.page), ("text", .str p.text)])),
        ("full_text", .str r.full_text)]

/-- Reading of the page-entry array of a loaded JSON record. -/
def decodePages : List Json → Option (List PageEntry)
  | [] => some []
  | j :: rest =>
      match (j.get? "page").bind Json.asNat with
      | none => none
      | some page =>
      match (j.get? "text").bind Json.asStr with
      | none => none
      | some text =>
      match decodePages rest with
      | none => none
      | some ps => some (⟨page, text⟩ :: ps)

/-- Reading of a full Document Record back from a loaded JSON value,
field by field. -/
def recordFromJson (j : Json) : Option DocumentRecord :=
  match (j.get? "doc_id").bind Json.asStr with
  | none => none
  | some doc_id =>
  match j.get? "metadata" with
  | none => none
  | some md =>
  match (md.get? "filename").bind Json.asStr with
  | none => none
  | some filename =>
  match (md.get? "pages").bind Json.asNat with
  | none => none
  | some pagesCount =>
  match (md.get? "title").bind Json.asStr with
  | none => none
  | some title =>
  match (md.get? "author").bind Json.asStr with
  | none => none
  | some author =>
  match (md.get? "subject").bind Json.asStr with
  | none => none
  | some subject =>
  match ((j.get? "pages").bind Json.asArr).bind decodePages with
  | none => none
  | some pages =>
  match (j.get? "full_text").bind Json.asStr with
  | none => none
  | some full_text =>
      some ⟨doc_id, ⟨filename, pagesCount, title, author, subject⟩,
            pages, full_text⟩

/-! ## The Store (src/db_setup.py)

The ChromaDB collection is modelled as the list of its entries; the
persistent storage path holds an optional collection (none before the
collection is first created). -/

/-- Metadata mapping of a Collection Entry (src/db_setup.py lines 53
to 58). -/
structure CollMeta where
  filename : String
  title : String
  author : String
  pages : Nat
deriving Repr, DecidableEq

/-- One row of the vector collection. -/
structure CollectionEntry where
  id : String
  document : String
  metadata : CollMeta
deriving Repr, DecidableEq

/-- The collection: the list of inserted entries, in insertion order. -/
abbrev Collection := List CollectionEntry

/-- Model of SpliceDB.add_paper (src/db_setup.py lines 33 to 39): one
collection.add call, inserting a new entry. -/
def add_paper (coll : Collection) (doc_id : String) (text : String)
    (metadata : CollMeta) : Collection :=
  coll ++ [⟨doc_id, text, metadata⟩]

/-- Field accesses that add_papers_from_json performs on one loaded JSON
file, in Python evaluation order (src/db_setup.py lines 53 to 64): the
first missing key yields none, modelling the KeyError that aborts the
bulk load. -/
def loadEntry (data : Json) : Option (String × String × CollMeta) :=
  match data.get? "metadata" with
  | none => none
  | some md =>
  match (md.get? "filename").bind Json.asStr with
  | none => none
  | some filename =>
  match (md.get? "title").bind Json.asStr with
  | none => none
  | some title =>
  match (md.get? "author").bind Json.asStr with
  | none => none
  | some author =>
  match (md.get? "pages").bind Json.asNat with
  | none => none
  | some pages =>
  match (data.get? "doc_id").bind Json.asStr with
  | none => none
  | some doc_id =>
  match (data.get? "full_text").bind Json.asStr with
  | none => none
  | some full_text =>
      some (doc_id, full_text, ⟨filename, title, author, pages⟩)

/-- Model of SpliceDB.add_papers_from_json (src/db_setup.py lines 41 to
69) on the enumerated JSON files: files are processed in order; each
well-formed file is inserted with add_paper; the first malformed file
raises, aborting the loop with the entries inserted so far persisted.
The boolean records whether the run aborted with an exception. -/
def add_papers_from_json (files : List Json) (coll : Collection) :
    Collection × Bool :=
  match files with
  | [] => (coll, false)
  | f :: rest =>
    match loadEntry f with
    | none => (coll, true)
    | some (doc_id, text, m) =>
        add_papers_from_json rest (add_paper coll doc_id text m)

/-- Model of client.get_or_create_collection as SpliceDB.__init__ calls
it (src/db_setup.py lines 28 to 31): an existing collection at the path
is reopened, a missing one is created empty. -/
def get_or_create_collection (store : Option Collection) : Collection :=
  store.getD []

/-- Model of init_database (src/db_setup.py lines 88 to 104): open the
store; when the entry count is zero, bulk-load the processed JSON files,
otherwise leave the collection untouched. The boolean records whether
the bulk load aborted with an exception. -/
def init_database (store : Option Collection) (jsonFiles : List Json) :
    Collection × Bool :=
  let coll := get_or_create_collection store
  if coll.length = 0 then add_papers_from_json jsonFiles coll
  else (coll, false)

/-! ## Helper lemmas -/

theorem leBytes_length (k n : Nat) : (leBytes k n).length = k := by
  induction k generalizing n with
  | zero => rfl
  | succ k ih => simp [leBytes, ih]

theorem md5Bytes_length (msg : List Nat) : (md5Bytes msg).length = 16 := by
  unfold md5Bytes
  simp [leBytes_length]

theorem byteHexChars_length (b : Nat) : (byteHexChars b).length = 2 := rfl

theorem flatten_hex_length (bs : List Nat) :
    ((bs.map byteHexChars).flatten).length = 2 * bs.length := by
  induction bs with
  | nil => rfl
  | cons b bs ih =>
      simp [byteHexChars_length, ih, Nat.mul_add, Nat.mul_succ]
      omega

theorem md5HexChars_length (s : String) : (md5HexChars s).length = 32 := by
  unfold md5HexChars
  rw [flatten_hex_length, md5Bytes_length]

theorem docId_length (name : String) : (docId name).length = 12 := by
  show ((md5HexChars name).take 12).length = 12
  rw [List.length_take, md5HexChars_length]
  rfl

theorem pyStrip_idempotent (s : String) : pyStrip (pyStrip s) = pyStrip s := by
  show (⟨((((s.data.dropWhile isPySpace).rdropWhile isPySpace).dropWhile
      isPySpace).rdropWhile isPySpace)⟩ : String) = ⟨_⟩
  have key : ∀ m : List Char, m.dropWhile isPySpace = m →
      (m.rdropWhile isPySpace).dropWhile isPySpace = m.rdropWhile isPySpace := by
    intro m hm
    rcases hr : m.rdropWhile isPySpace with _ | ⟨a, t⟩
    · rfl
    · obtain ⟨u, hu⟩ := List.rdropWhile_prefix isPySpace m
      rw [hr] at hu
      have hma : m = a :: (t ++ u) := by
        rw [← hu, List.cons_append]
      have hna : ¬isPySpace a = true := by
        intro hpa
        have hthis := hm
        rw [hma, List.dropWhile_cons_of_pos hpa] at hthis
        have hlen := congrArg List.length hthis
        have hle := (@List.dropWhile_sublist Char (t ++ u) isPySpace).length_le
        simp [List.length_append] at hlen hle
        omega
      rw [List.dropWhile_cons_of_neg hna]
  rw [key (s.data.dropWhile isPySpace) (List.dropWhile_idempotent _ _),
      List.rdropWhile_idempotent]

theorem pages_filterMap_map_text (ts : List String) (n : Nat) :
    (((List.enumFrom n ts).filterMap fun pt =>
        if pyStrip pt.2 ≠ "" then some (⟨pt.1, pyStrip pt.2⟩ : PageEntry) else none).map
      PageEntry.text) = (ts.map pyStrip).filter fun t => t ≠ "" := by
  induction ts generalizing n with
  | nil => rfl
  | cons t ts ih =>
      by_cases h : pyStrip t = ""
      · simp only [List.enumFrom_cons, List.filterMap_cons, List.map_cons, List.filter_cons, h]
        simpa using ih (n + 1)
      · simp only [List.enumFrom_cons, List.filterMap_cons, List.map_cons, List.filter_cons, h]
        simpa [h] using ih (n + 1)

theorem pages_filterMap_map_page (ts : List String) (n : Nat) :
    (((List.enumFrom n ts).filterMap fun pt =>
        if pyStrip pt.2 ≠ "" then some (⟨pt.1, pyStrip pt.2⟩ : PageEntry) else none).map
      PageEntry.page) =
      (((List.enumFrom n ts).filter fun pt => pyStrip pt.2 ≠ "").map Prod.fst) := by
  induction ts generalizing n with
  | nil => rfl
  | cons t ts ih =>
      by_cases h : pyStrip t = ""
      · simpa [List.enumFrom_cons, List.filterMap_cons, List.filter_cons, h] using ih (n + 1)
      · simpa [List.enumFrom_cons, List.filterMap_cons, List.filter_cons, h] using ih (n + 1)

theorem pages_filterMap_mem (ts : List String) (n : Nat) :
    ∀ e ∈ ((List.enumFrom n ts).filterMap fun pt =>
        if pyStrip pt.2 ≠ "" then some (⟨pt.1, pyStrip pt.2⟩ : PageEntry) else none),
      n ≤ e.page ∧ e.page < n + ts.length ∧ e.text ≠ "" ∧ pyStrip e.text = e.text := by
  induction ts generalizing n with
  | nil => intro e he; simp [List.enumFrom] at he
  | cons t ts ih =>
      intro e he
      simp only [List.enumFrom_cons, List.filterMap_cons] at he
      by_cases h : pyStrip t = ""
      · simp only [h, ne_eq, not_true_eq_false, if_false] at he
        obtain ⟨h1, h2, h3, h4⟩ := ih (n + 1) e he
        exact ⟨by omega, by simp only [List.length_cons]; omega, h3, h4⟩
      · simp only [h, ne_eq, not_false_eq_true, if_true, List.mem_cons] at he
        rcases he with rfl | he'
        · exact ⟨Nat.le_refl n, by simp only [List.length_cons]; omega,
            h, pyStrip_idempotent t⟩
        · obtain ⟨h1, h2, h3, h4⟩ := ih (n + 1) e he'
          exact ⟨by omega, by simp only [List.length_cons]; omega, h3, h4⟩

theorem pages_filterMap_pairwise (ts : List String) (n : Nat) :
    ((((List.enumFrom n ts).filterMap fun pt =>
        if pyStrip pt.2 ≠ "" then some (⟨pt.1, pyStrip pt.2⟩ : PageEntry) else none).map
      PageEntry.page).Pairwise (· < ·)) := by
  induction ts generalizing n with
  | nil => simp [List.enumFrom]
  | cons t ts ih =>
      simp only [List.enumFrom_cons, List.filterMap_cons]
      by_cases h : pyStrip t = ""
      · simp only [h, ne_eq, not_true_eq_false, if_false]
        exact ih (n + 1)
      · simp only [h, ne_eq, not_false_eq_true, if_true, List.map_cons]
        refine List.Pairwise.cons ?_ (ih (n + 1))
        intro x hx
        obtain ⟨e, he, rfl⟩ := List.mem_map.mp hx
        have := (pages_filterMap_mem ts (n + 1) e he).1
        omega

theorem pages_filterMap_all_blank (ts : List String) (n : Nat)
    (h : ∀ t ∈ ts, pyStrip t = "") :
    ((List.enumFrom n ts).filterMap fun pt =>
        if pyStrip pt.2 ≠ "" then some (⟨pt.1, pyStrip pt.2⟩ : PageEntry) else none) = [] := by
  induction ts generalizing n with
  | nil => rfl
  | cons t ts ih =>
      simp only [List.enumFrom_cons, List.filterMap_cons, h t (List.mem_cons_self t ts),
        ne_eq, not_true_eq_false, if_false]
      exact ih (n + 1) fun u hu => h u (List.mem_cons_of_mem t hu)

theorem decodePages_map (ps : List PageEntry) :
    decodePages (ps.map fun p =>
      Json.obj [("page", Json.num p.page), ("text", Json.str p.text)]) = some ps := by
  induction ps with
  | nil => rfl
  | cons p ps ih =>
      have h1 : decodePages ((p :: ps).map fun p =>
          Json.obj [("page", Json.num p.page), ("text", Json.str p.text)]) =
          match decodePages (ps.map fun p =>
            Json.obj [("page", Json.num p.page), ("text", Json.str p.text)]) with
          | none => none
          | some rest => some (⟨p.page, p.text⟩ :: rest) := rfl
      rw [h1, ih]

theorem recordFromJson_recordToJson (r : DocumentRecord) :
    recordFromJson (recordToJson r) = some r := by
  have h1 : recordFromJson (recordToJson r) =
      match decodePages (r.pages.map fun p =>
        Json.obj [("page", Json.num p.page), ("text", Json.str p.text)]) with
      | none => none
      | some pages =>
          some ⟨r.doc_id,
            ⟨r.metadata.filename, r.metadata.pages, r.metadata.title,
             r.metadata.author, r.metadata.subject⟩, pages, r.full_text⟩ := rfl
  rw [h1, decodePages_map]

/-! ## Claim theorems -/

/-- Claim C1: for every PDF with at least one page whose extracted text is
non-empty after stripping, the full_text field of the record returned by
extract_text equals the stripped texts of those non-empty pages joined with
a blank-line separator, in increasing page order. -/
theorem C1_full_text_blank_line_join (name : String) (d : PDFDoc)
    (h : ∃ t ∈ d.pageTexts, pyStrip t ≠ "") :
    (extract_text name d).full_text =
      String.intercalate "\n\n" ((d.pageTexts.map pyStrip).filter fun t => t ≠ "") := by
  have h1 : (extract_text name d).full_text =
      String.intercalate "\n\n"
        (((List.enumFrom 1 d.pageTexts).filterMap fun pt =>
            if pyStrip pt.2 ≠ "" then some (⟨pt.1, pyStrip pt.2⟩ : PageEntry) else none).map
          PageEntry.text) := rfl
  rw [h1, pages_filterMap_map_text]

/-- Witness for C1 at a concrete two-page PDF whose second page is blank. -/
theorem C1_full_text_blank_line_join_witness :
    (∃ t ∈ ["px", "  ", "qy"], pyStrip t ≠ "") ∧
    (extract_text "w.pdf" ⟨["px", "  ", "qy"], none, none, none⟩).full_text =
      String.intercalate "\n\n" ((["px", "  ", "qy"].map pyStrip).filter fun t => t ≠ "") :=
  ⟨by decide, C1_full_text_blank_line_join "w.pdf" ⟨["px", "  ", "qy"], none, none, none⟩
    (by decide)⟩

/-- Claim C2: extract_text drops pages whose extracted text is empty or
whitespace-only from the record page list, while the pages field of the
record metadata still equals the total page count; in particular a 3-page
PDF whose page 2 is blank yields a page list with page numbers 1 and 3 and
a metadata page count of 3. -/
theorem C2_blank_pages_dropped_but_counted :
    (∀ (name : String) (d : PDFDoc),
       (extract_text name d).metadata.pages = d.pageTexts.length ∧
       (extract_text name d).pages.map PageEntry.page =
         ((List.enumFrom 1 d.pageTexts).filter fun pt => pyStrip pt.2 ≠ "").map Prod.fst) ∧
    (∀ (name : String) (d : PDFDoc) (t₁ t₂ t₃ : String),
       d.pageTexts = [t₁, t₂, t₃] →
       pyStrip t₁ ≠ "" → pyStrip t₂ = "" → pyStrip t₃ ≠ "" →
       (extract_text name d).pages.map PageEntry.page = [1, 3] ∧
       (extract_text name d).metadata.pages = 3) := by
  have key : ∀ (name : String) (d : PDFDoc),
      (extract_text name d).pages.map PageEntry.page =
        ((List.enumFrom 1 d.pageTexts).filter fun pt => pyStrip pt.2 ≠ "").map Prod.fst := by
    intro name d
    have h1 : (extract_text name d).pages.map PageEntry.page =
        (((List.enumFrom 1 d.pageTexts).filterMap fun pt =>
            if pyStrip pt.2 ≠ "" then some (⟨pt.1, pyStrip pt.2⟩ : PageEntry) else none).map
          PageEntry.page) := rfl
    rw [h1, pages_filterMap_map_page]
  refine ⟨fun name d => ⟨rfl, key name d⟩, fun name d t₁ t₂ t₃ hd h₁ h₂ h₃ => ⟨?_, ?_⟩⟩
  · rw [key name d, hd]
    simp [List.enumFrom_cons, List.filter_cons, h₁, h₂, h₃]
  · show d.pageTexts.length = 3
    rw [hd]
    rfl

/-- Witness for C2 at a concrete 3-page PDF whose page 2 is blank. -/
theorem C2_blank_pages_dropped_but_counted_witness :
    pyStrip "u" ≠ "" ∧ pyStrip " \t" = "" ∧ pyStrip "v" ≠ "" ∧
    ((extract_text "w2.pdf" ⟨["u", " \t", "v"], none, none, none⟩).pages.map PageEntry.page
        = [1, 3] ∧
     (extract_text "w2.pdf" ⟨["u", " \t", "v"], none, none, none⟩).metadata.pages = 3) :=
  ⟨by decide, by decide, by decide,
   C2_blank_pages_dropped_but_counted.2 "w2.pdf" ⟨["u", " \t", "v"], none, none, none⟩
     "u" " \t" "v" rfl (by decide) (by decide) (by decide)⟩

/-- Claim C3: the document identifier is a fixed-length truncation of a hash
of the filename string only: it is deterministic in the filename, two
documents with the same filename get the same identifier regardless of
content, and it has fixed length 12. -/
theorem C3_doc_id_filename_hash_only (name : String) (d₁ d₂ : PDFDoc) :
    (extract_text name d₁).doc_id = (extract_text name d₂).doc_id ∧
    (extract_text name d₁).doc_id = docId name ∧
    docId name = ⟨(md5HexChars name).take 12⟩ ∧
    (docId name).length = 12 :=
  ⟨rfl, rfl, rfl, docId_length name⟩

/-- Claim C4: process_directory isolates failures per file: a raising file is
caught and logged and processing continues, every successful extraction is
written as <identifier>.json and appears in the returned list. -/
theorem C4_per_file_isolation (files : List PDFFile) :
    (process_directory files).results =
      (files.filterMap fun f => f.doc.map (extract_text f.name)) ∧
    (process_directory files).written =
      ((process_directory files).results.map fun e => (e.doc_id ++ ".json", e)) ∧
    (process_directory files).errors =
      ((files.filter fun f => f.doc.isNone).map PDFFile.name) := by
  induction files with
  | nil => exact ⟨rfl, rfl, rfl⟩
  | cons f rest ih =>
      obtain ⟨ih1, ih2, ih3⟩ := ih
      cases hd : f.doc with
      | none =>
          refine ⟨?_, ?_, ?_⟩ <;>
            simp [process_directory, hd, ih1, ih2, ih3, List.filterMap_cons,
              List.filter_cons]
      | some d =>
          refine ⟨?_, ?_, ?_⟩ <;>
            simp [process_directory, hd, ih1, ih2, ih3, List.filterMap_cons,
              List.filter_cons]

/-- Claim C5: add_papers_from_json has all-or-nothing-per-run semantics: the
first JSON file missing an expected key aborts the bulk load at that file,
while the entries inserted from earlier files remain persisted and no later
file is processed. -/
theorem C5_bulk_load_aborts_at_malformed (pre : List Json) (bad : Json)
    (post : List Json) (coll : Collection)
    (hpre : ∀ f ∈ pre, (loadEntry f).isSome)
    (hbad : loadEntry bad = none) :
    add_papers_from_json (pre ++ bad :: post) coll =
      (coll ++ pre.filterMap fun f =>
        (loadEntry f).map fun e => (⟨e.1, e.2.1, e.2.2⟩ : CollectionEntry), true) := by
  revert hpre
  induction pre generalizing coll with
  | nil =>
      intro hpre
      simp only [List.nil_append, List.filterMap_nil, List.append_nil]
      show add_papers_from_json (bad :: post) coll = (coll, true)
      simp only [add_papers_from_json, hbad]
  | cons f pre ih =>
      intro hpre
      obtain ⟨⟨id, tx, m⟩, he⟩ :=
        Option.isSome_iff_exists.mp (hpre f (List.mem_cons_self f pre))
      have step : add_papers_from_json ((f :: pre) ++ bad :: post) coll =
          add_papers_from_json (pre ++ bad :: post) (add_paper coll id tx m) := by
        simp only [List.cons_append, add_papers_from_json, he]
        rfl
      rw [step, ih (add_paper coll id tx m)
        (fun g hg => hpre g (List.mem_cons_of_mem f hg))]
      simp [add_paper, he, List.filterMap_cons, List.append_assoc]

/-- Witness for C5: one well-formed file followed by one file missing its
metadata; the load aborts after inserting the first entry. -/
theorem C5_bulk_load_aborts_at_malformed_witness :
    (∀ f ∈ [Json.obj [("doc_id", Json.str "id1"),
        ("metadata", Json.obj [("filename", Json.str "f.pdf"), ("pages", Json.num 2),
          ("title", Json.str "T"), ("author", Json.str "A"), ("subject", Json.str "S")]),
        ("full_text", Json.str "body")]], (loadEntry f).isSome) ∧
    loadEntry (Json.obj [("doc_id", Json.str "id2")]) = none ∧
    add_papers_from_json ([Json.obj [("doc_id", Json.str "id1"),
        ("metadata", Json.obj [("filename", Json.str "f.pdf"), ("pages", Json.num 2),
          ("title", Json.str "T"), ("author", Json.str "A"), ("subject", Json.str "S")]),
        ("full_text", Json.str "body")]] ++ Json.obj [("doc_id", Json.str "id2")] :: []) [] =
      ([] ++ [Json.obj [("doc_id", Json.str "id1"),
        ("metadata", Json.obj [("filename", Json.str "f.pdf"), ("pages", Json.num 2),
          ("title", Json.str "T"), ("author", Json.str "A"), ("subject", Json.str "S")]),
        ("full_text", Json.str "body")]].filterMap fun f =>
          (loadEntry f).map fun e => (⟨e.1, e.2.1, e.2.2⟩ : CollectionEntry), true) :=
  ⟨fun f hf => by rw [List.mem_singleton.mp hf]; rfl, rfl,
   C5_bulk_load_aborts_at_malformed
     [Json.obj [("doc_id", Json.str "id1"),
        ("metadata", Json.obj [("filename", Json.str "f.pdf"), ("pages", Json.num 2),
          ("title", Json.str "T"), ("author", Json.str "A"), ("subject", Json.str "S")]),
        ("full_text", Json.str "body")]]
     (Json.obj [("doc_id", Json.str "id2")]) [] []
     (fun f hf => by rw [List.mem_singleton.mp hf]; rfl) rfl⟩

/-- Claim C6: initializing the Store against an already-populated storage
path is idempotent: the existing collection is reopened unchanged, the
entry count stays the same, and the bulk load is skipped. -/
theorem C6_init_database_idempotent (c : Collection) (files : List Json)
    (h : c ≠ []) :
    init_database (some c) files = (c, false) := by
  simp only [init_database, get_or_create_collection, Option.getD_some]
  rw [if_neg fun hlen => h (List.length_eq_zero.mp hlen)]

/-- Witness for C6 at a one-entry collection. -/
theorem C6_init_database_idempotent_witness :
    ([(⟨"idx", "text", ⟨"x.pdf", "T", "A", 1⟩⟩ : CollectionEntry)] ≠ []) ∧
    init_database (some [⟨"idx", "text", ⟨"x.pdf", "T", "A", 1⟩⟩]) [] =
      ([⟨"idx", "text", ⟨"x.pdf", "T", "A", 1⟩⟩], false) :=
  ⟨by decide, C6_init_database_idempotent [⟨"idx", "text", ⟨"x.pdf", "T", "A", 1⟩⟩] []
    (by decide)⟩

/-- Claim C7: a Document Record produced by the Extractor, written to JSON as
process_directory does and read back field by field as the bulk load reads
the file, yields a record equal field-for-field to the original. -/
theorem C7_record_json_round_trip (name : String) (d : PDFDoc) :
    recordFromJson (recordToJson (extract_text name d)) = some (extract_text name d) :=
  recordFromJson_recordToJson (extract_text name d)

/-- Claim C8: for a PDF in which every page is empty or whitespace-only,
extract_text returns an empty page list and an empty full_text. -/
theorem C8_all_blank_pages (name : String) (d : PDFDoc)
    (h : ∀ t ∈ d.pageTexts, pyStrip t = "") :
    (extract_text name d).pages = [] ∧ (extract_text name d).full_text = "" := by
  have hp : (extract_text name d).pages = [] := by
    have h1 : (extract_text name d).pages =
        ((List.enumFrom 1 d.pageTexts).filterMap fun pt =>
          if pyStrip pt.2 ≠ "" then some (⟨pt.1, pyStrip pt.2⟩ : PageEntry) else none) := rfl
    rw [h1, pages_filterMap_all_blank d.pageTexts 1 h]
  refine ⟨hp, ?_⟩
  have h2 : (extract_text name d).full_text =
      String.intercalate "\n\n" ((extract_text name d).pages.map PageEntry.text) := rfl
  rw [h2, hp]
  rfl

/-- Witness for C8 at a concrete two-page PDF with only whitespace. -/
theorem C8_all_blank_pages_witness :
    (∀ t ∈ ["", " \n\t "], pyStrip t = "") ∧
    ((extract_text "w8.pdf" ⟨["", " \n\t "], none, none, none⟩).pages = [] ∧
     (extract_text "w8.pdf" ⟨["", " \n\t "], none, none, none⟩).full_text = "") :=
  ⟨by decide, C8_all_blank_pages "w8.pdf" ⟨["", " \n\t "], none, none, none⟩ (by decide)⟩

/-- Claim C9: when the embedded document properties lack a title, author or
subject, the corresponding metadata field of the record is the empty
string. -/
theorem C9_missing_properties_default_empty (name : String) (d : PDFDoc) :
    (d.title = none → (extract_text name d).metadata.title = "") ∧
    (d.author = none → (extract_text name d).metadata.author = "") ∧
    (d.subject = none → (extract_text name d).metadata.subject = "") := by
  refine ⟨fun h => ?_, fun h => ?_, fun h => ?_⟩ <;>
    simp [extract_text, h]

/-- Witness for C9 at a PDF with no embedded properties at all. -/
theorem C9_missing_properties_default_empty_witness :
    ((⟨["t"], none, none, none⟩ : PDFDoc).title = none ∧
     (⟨["t"], none, none, none⟩ : PDFDoc).author = none ∧
     (⟨["t"], none, none, none⟩ : PDFDoc).subject = none) ∧
    ((extract_text "w9.pdf" ⟨["t"], none, none, none⟩).metadata.title = "" ∧
     (extract_text "w9.pdf" ⟨["t"], none, none, none⟩).metadata.author = "" ∧
     (extract_text "w9.pdf" ⟨["t"], none, none, none⟩).metadata.subject = "") :=
  ⟨⟨rfl, rfl, rfl⟩,
   ⟨(C9_missing_properties_default_empty "w9.pdf" ⟨["t"], none, none, none⟩).1 rfl,
    (C9_missing_properties_default_empty "w9.pdf" ⟨["t"], none, none, none⟩).2.1 rfl,
    (C9_missing_properties_default_empty "w9.pdf" ⟨["t"], none, none, none⟩).2.2 rfl⟩⟩

/-- Claim C10: in every record returned by extract_text, the page numbers in
the page list are 1-based, strictly increasing and at most the metadata page
count, and every entry text is non-empty with no leading or trailing
whitespace. -/
theorem C10_pages_invariant (name : String) (d : PDFDoc) :
    (((extract_text name d).pages.map PageEntry.page).Pairwise (· < ·)) ∧
    ∀ e ∈ (extract_text name d).pages,
      1 ≤ e.page ∧ e.page ≤ (extract_text name d).metadata.pages ∧
      e.text ≠ "" ∧ pyStrip e.text = e.text := by
  have h1 : (extract_text name d).pages =
      ((List.enumFrom 1 d.pageTexts).filterMap fun pt =>
        if pyStrip pt.2 ≠ "" then some (⟨pt.1, pyStrip pt.2⟩ : PageEntry) else none) := rfl
  have h2 : (extract_text name d).metadata.pages = d.pageTexts.length := rfl
  constructor
  · rw [h1]
    exact pages_filterMap_pairwise d.pageTexts 1
  · intro e he
    rw [h1] at he
    obtain ⟨ha, hb, hc, hd2⟩ := pages_filterMap_mem d.pageTexts 1 e he
    exact ⟨ha, by rw [h2]; omega, hc, hd2⟩

/-- Witness for C10 at a concrete record entry. -/
theorem C10_pages_invariant_witness :
    ((⟨1, "t10"⟩ : PageEntry) ∈ (extract_text "wa.pdf" ⟨["t10"], none, none, none⟩).pages) ∧
    (1 ≤ (1 : Nat) ∧
     1 ≤ (extract_text "wa.pdf" ⟨["t10"], none, none, none⟩).metadata.pages ∧
     ("t10" : String) ≠ "" ∧ pyStrip "t10" = "t10") :=
  ⟨by decide,
   C10_pages_invariant "wa.pdf" ⟨["t10"], none, none, none⟩ |>.2 ⟨1, "t10"⟩ (by decide)⟩

end Splice
